import Mathlib

/-!
Verification development for the frontend of a multi-tenant customer-support
ticketing dashboard.  The session store (`stores/authStore.ts`), the HTTP
client adapter (`services/api.ts`), the auth service (`services/authService.ts`),
the route authorization guard (`components/ProtectedRoute.tsx`), the session
rehydration logic (`App.tsx`) and the sign-in flow (`pages/SignInPage_old.tsx`)
are embedded shallowly and their documented behaviours are proved or refuted.
-/

/-! ## JSON values and JavaScript-style helpers -/

/-- A JSON value, as carried in an HTTP response body (`response.data`).
`undefined` models JavaScript `undefined` (an absent property or body). -/
inductive Json where
  | undefined : Json
  | null : Json
  | bool : Bool → Json
  | num : Int → Json
  | str : String → Json
  | arr : List Json → Json
  | obj : List (String × Json) → Json

/-- JavaScript truthiness of a value: `undefined`, `null`, `false`, `0` and
`""` are falsy; every object and array (even empty) is truthy. -/
def Json.truthy : Json → Bool
  | .undefined => false
  | .null => false
  | .bool b => b
  | .num n => n != 0
  | .str s => s != ""
  | .arr _ => true
  | .obj _ => true

/-- Property access `v.f` in JavaScript: a field lookup on an object,
`undefined` on everything else (modelling the absence of the property;
accessing a property of `undefined`/`null` throws, but every use in the
embedded code is guarded by a truthiness check first). -/
def Json.getField (v : Json) (f : String) : Json :=
  match v with
  | .obj fields =>
    match fields.find? (fun p => p.1 == f) with
    | some p => p.2
    | none => .undefined
  | _ => .undefined

/-- `typeof v === 'string'` together with extraction of the string. -/
def Json.asString : Json → Option String
  | .str s => some s
  | _ => none

/-- `typeof v === 'object'` (true for objects, arrays and `null`). -/
def Json.isObjectType : Json → Bool
  | .obj _ => true
  | .arr _ => true
  | .null => true
  | _ => false

mutual

/-- `JSON.stringify`, modelling the JavaScript builtin on our value type
(string escaping is restricted to quote and backslash; enough for the
properties proved here, which only use that the result is one non-empty
string). `undefined` stringifies to `undefined` at the top level. -/
def Json.stringify : Json → String
  | .undefined => "undefined"
  | .null => "null"
  | .bool true => "true"
  | .bool false => "false"
  | .num n => toString n
  | .str s => "\"" ++ Json.escape s.toList ++ "\""
  | .arr xs => "[" ++ String.intercalate "," (Json.stringifyList xs) ++ "]"
  | .obj fs => "\x7b" ++ String.intercalate "," (Json.stringifyFields fs) ++ "\x7d"

/-- Stringify each element of an array. -/
def Json.stringifyList : List Json → List String
  | [] => []
  | x :: xs => Json.stringify x :: Json.stringifyList xs

/-- Stringify each `key: value` pair of an object. -/
def Json.stringifyFields : List (String × Json) → List String
  | [] => []
  | (k, v) :: fs =>
    ("\"" ++ Json.escape k.toList ++ "\":" ++ Json.stringify v) :: Json.stringifyFields fs

/-- Escape quotes and backslashes inside a JSON string literal. -/
def Json.escape : List Char → String
  | [] => ""
  | c :: cs =>
    (if c = '"' ∨ c = '\\' then String.mk ['\\', c] else String.mk [c]) ++ Json.escape cs

end

/-- JavaScript truthiness of an optional string slot (`localStorage.getItem`
returns `null` for an absent key; the empty string is falsy as well). -/
def optStrTruthy : Option String → Bool
  | none => false
  | some s => s != ""

/-! ## Data model: users and the session store (`stores/authStore.ts`) -/

/-- The `User` record of `services/authService.ts`.  The TypeScript interface
declares `role` as a union of literal strings, but the runtime value comes
from the backend, so `role` is modelled as optional: `none` is an absent
(`undefined`) role and `some ""` an empty one — both falsy in the guards. -/
structure UserRec where
  id : String
  username : String
  email : String
  role : Option String
  company_id : Option String
  department_id : Option String
deriving Repr, DecidableEq

/-- JavaScript truthiness of a `user.role` access (`!user.role`). -/
def roleTruthy : Option String → Bool
  | none => false
  | some s => s != ""

/-- The zustand auth store state of `stores/authStore.ts`:
`isAuthenticated`, `user`, `selectedCompanyId` (the operating tenant). -/
structure AuthState where
  isAuthenticated : Bool
  user : Option UserRec
  selectedCompanyId : Option String
deriving Repr, DecidableEq

/-- The store's initial state. -/
def AuthState.initial : AuthState :=
  { isAuthenticated := false, user := none, selectedCompanyId := none }

/-- `setUser` mutator of the store. -/
def AuthState.setUser (s : AuthState) (u : Option UserRec) : AuthState :=
  { s with user := u }

/-- `setIsAuthenticated` mutator of the store. -/
def AuthState.setIsAuthenticated (s : AuthState) (b : Bool) : AuthState :=
  { s with isAuthenticated := b }

/-- `setSelectedCompanyId` mutator of the store. -/
def AuthState.setSelectedCompanyId (s : AuthState) (c : Option String) : AuthState :=
  { s with selectedCompanyId := c }

/-- `clearAuth` of `stores/authStore.ts`: a single `set` call that writes all
three fields at once (`isAuthenticated: false, user: null,
selectedCompanyId: null`), so the reset is one atomic store update. -/
def AuthState.clearAuth (_s : AuthState) : AuthState :=
  { isAuthenticated := false, user := none, selectedCompanyId := none }

/-! ## Route Authorization Guard (`components/ProtectedRoute.tsx`) -/

/-- The `role` prop of `ProtectedRoute`: absent, a single role string, or an
array of role strings (`role?: string | string[]`). -/
abbrev RoleReq := Option (String ⊕ List String)

/-- Outcome of one guard evaluation: redirect to `/login` carrying the
attempted location in `state.from` (with `replace`), redirect to another
path (with `replace`), or render the protected children. -/
inductive GuardOutcome where
  | loginRedirect : GuardOutcome
  | redirectTo : String → GuardOutcome
  | render : GuardOutcome
deriving Repr, DecidableEq

/-- The body of `ProtectedRoute` (`components/ProtectedRoute.tsx`), translated
clause by clause: (1) unauthenticated → `<Navigate to="/login" state={from}>`;
(2) authenticated but `!user || !user.role` → `clearAuth()` then navigate to
login; (3) a truthy `role` prop whose normalized list does not contain the
user's role → role-specific default redirect; (4) otherwise render children.
Returns the outcome together with the store state after the evaluation. -/
def protectedRoute (st : AuthState) (req : RoleReq) : GuardOutcome × AuthState :=
  if !st.isAuthenticated then
    (.loginRedirect, st)
  else
    match st.user with
    | none => (.loginRedirect, st.clearAuth)
    | some u =>
      if !roleTruthy u.role then
        (.loginRedirect, st.clearAuth)
      else
        let userRole := u.role.getD ""
        let reqTruthy : Bool :=
          match req with
          | none => false
          | some (.inl s) => s != ""
          | some (.inr _) => true
        if reqTruthy then
          let requiredRoles : List String :=
            match req with
            | some (.inr l) => l
            | some (.inl s) => [s]
            | none => []
          if requiredRoles.contains userRole then
            (.render, st)
          else if userRole = "superAdmin" then
            (.redirectTo "/admin/select-company", st)
          else if userRole = "admin" then
            (.redirectTo "/admin/analytics-dashboard", st)
          else if userRole = "employee" then
            (.redirectTo "/", st)
          else
            (.redirectTo "/", st)
        else
          (.render, st)

/-- The Route Authorization Guard as the specification describes it (§4.3):
(1) if not authenticated, redirect to login preserving the attempted
location; (2) if the user record is absent or its role is absent (the spec
requires a non-empty role), clear the session and redirect to login; (3) if a
required role or set of roles is given and the current role is not among
them, redirect to the role-appropriate default (cross-tenant admin to the
company-selection screen, tenant admin to the analytics dashboard, tenant
employee to the site root, anything else to the generic fallback);
(4) otherwise render the protected content. -/
def guardSpec (st : AuthState) (req : RoleReq) : GuardOutcome × AuthState :=
  if st.isAuthenticated = false then
    (.loginRedirect, st)
  else if st.user = none ∨ ¬ roleTruthy ((st.user.getD ⟨"", "", "", none, none, none⟩).role) then
    (.loginRedirect, st.clearAuth)
  else
    let userRole := ((st.user.getD ⟨"", "", "", none, none, none⟩).role).getD ""
    let required : Option (List String) :=
      match req with
      | none => none
      | some (.inl s) => some [s]
      | some (.inr l) => some l
    match required with
    | some roles =>
      if userRole ∈ roles then (.render, st)
      else if userRole = "superAdmin" then (.redirectTo "/admin/select-company", st)
      else if userRole = "admin" then (.redirectTo "/admin/analytics-dashboard", st)
      else if userRole = "employee" then (.redirectTo "/", st)
      else (.redirectTo "/", st)
    | none => (.render, st)

/-! ## HTTP Client Adapter (`services/api.ts`) -/

/-- One axios error as seen by the response interceptor: `error.response` is
absent on a network failure, otherwise carries a status and a body. -/
structure HttpResponse where
  status : Nat
  data : Json

/-- The `error` argument of the rejection interceptor. -/
structure HttpError where
  response : Option HttpResponse

/-- The browser-level state the interceptor acts on: the `token` key of
`localStorage`, the zustand auth store, `window.location.href` (together with
a count of assignments to it), and the list of toast messages shown. -/
structure ClientState where
  token : Option String
  store : AuthState
  locationHref : String
  navWrites : Nat
  toasts : List String
deriving Repr, DecidableEq

/-- `toast.error(msg)`: appends one notification. -/
def ClientState.toast (s : ClientState) (m : String) : ClientState :=
  { s with toasts := s.toasts ++ [m] }

/-- `window.location.href = p`: one navigation assignment. -/
def ClientState.navigate (s : ClientState) (p : String) : ClientState :=
  { s with locationHref := p, navWrites := s.navWrites + 1 }

/-- The 422 branch of the response interceptor (`services/api.ts`), lines
54–81, translated clause by clause.  Starting from the default message, if
`response.data` and `response.data.detail` are truthy: an array detail maps
each element (a string stays itself, an element whose `msg` is truthy
(`err.msg && …`) and a string yields the message, anything else is
`JSON.stringify`-ed) and joins with `"; "`; a string
detail is used as is; an object detail with a truthy string `message` yields
that message; any other object is `JSON.stringify`-ed.  The final
`toast.error(finalMessage || 'Unprocessable Content')` replaces an empty
result with the fallback. -/
def validation422Raw (data : Json) : String :=
  if data.truthy ∧ (data.getField "detail").truthy then
    match data.getField "detail" with
    | .arr errs =>
      String.intercalate "; " (errs.map (fun e =>
        match e with
        | .str s => s
        | _ =>
          if (e.getField "msg").truthy ∧ ((e.getField "msg").asString).isSome then
            ((e.getField "msg").asString).getD ""
          else
            e.stringify))
    | .str s => s
    | detail =>
      if (detail.getField "message").truthy ∧ ((detail.getField "message").asString).isSome then
        ((detail.getField "message").asString).getD ""
      else if detail.isObjectType then
        detail.stringify
      else
        "Invalid input data."
  else "Invalid input data."

/-- The message actually handed to `toast.error` by the 422 branch:
`finalMessage || 'Unprocessable Content'` replaces an empty normalized
message with the fallback. -/
def validation422Message (data : Json) : String :=
  if validation422Raw data = "" then "Unprocessable Content" else validation422Raw data

/-- The rejection handler of `api.interceptors.response` (`services/api.ts`,
lines 34–97).  With a response: 401 removes the `token` key, assigns
`window.location.href = '/login'` and toasts the session-expired message
(the auth store is not touched); 403/404/500 toast fixed messages; 422 toasts
the normalized validation message; any other status toasts
`response.data?.message || 'An unexpected error occurred.'`.  Without a
response it toasts the network-error message.  In every case the original
error is re-raised (`Promise.reject(error)`), returned here alongside the
updated state. -/
def responseErrorHandler (e : HttpError) (s : ClientState) : ClientState × HttpError :=
  let s' :=
    match e.response with
    | some r =>
      match r.status with
      | 401 =>
        ((({ s with token := none }).navigate "/login").toast
          "Your session has expired. Please login again.")
      | 403 => s.toast "You do not have permission to perform this action."
      | 404 => s.toast "The requested resource was not found."
      | 422 => s.toast (validation422Message r.data)
      | 500 => s.toast "An error occurred on the server. Please try again later."
      | _ =>
        let msg := r.data.getField "message"
        s.toast (if msg.truthy then
                   match msg.asString with
                   | some m => m
                   | none => msg.stringify
                 else "An unexpected error occurred.")
    | none => s.toast "Unable to connect to the server. Please check your internet connection."
  (s', e)

/-- Sequential processing of several failed responses by the interceptor —
the event loop runs the rejection callbacks one after the other, so several
requests failing concurrently each pass through `responseErrorHandler`. -/
def processErrors : List HttpError → ClientState → ClientState
  | [], s => s
  | e :: rest, s => processErrors rest (responseErrorHandler e s).1

/-! ## Auth service (`services/authService.ts`) -/

/-- The decoded JWT payload as used by `isTokenValid`: only the optional
numeric `exp` claim matters (`@ts-ignore — exp may not exist in all JWTs`).
Times are rationals because `Date.now() / 1000` is fractional. -/
structure JwtPayload where
  exp : Option ℚ

/-- A `jwtDecode` implementation: the external library either throws (caught
by `isTokenValid`) or returns a payload.  It is a parameter because the
library is outside this repository. -/
def JwtDecoder := String → Except Unit JwtPayload

/-- `isTokenValid` (`services/authService.ts`, lines 99–112): reads the
`token` slot; a missing (or falsy) token yields `false`; a token the decoder
throws on yields `false`; otherwise the result is `decoded.exp > currentTime`
— which is `false` when `exp` is absent (`undefined > t` is false in JS) and
a real comparison otherwise. -/
def isTokenValid (decode : JwtDecoder) (now : ℚ) (tokenSlot : Option String) : Bool :=
  if !optStrTruthy tokenSlot then false
  else
    match decode (tokenSlot.getD "") with
    | .error _ => false
    | .ok payload =>
      match payload.exp with
      | none => false
      | some e => decide (e > now)

/-- The browser-level state the auth service and pages act on: the
`localStorage` token slot, the axios default `Authorization` header, the
zustand store, the route last navigated to, and the sign-in form's general
error message. -/
structure FrontState where
  storage : Option String
  apiAuthHeader : Option String
  store : AuthState
  route : Option String
  generalError : Option String
deriving Repr, DecidableEq

/-- The reset performed by the `catch` branch of `login`
(`services/authService.ts`, lines 79–85): remove the token, delete the axios
default `Authorization` header, `clearAuth()` the store, and rethrow. -/
def loginCatchReset (s : FrontState) : FrontState :=
  { s with storage := none, apiAuthHeader := none, store := s.store.clearAuth }

/-- `login` (`services/authService.ts`, lines 52–86).  `resp` is the outcome
of `await api.post('/auth/login', …)`; `postFailure` injects an exception
thrown by a later step inside the `try` (after the token has been written),
`none` when every later step succeeds.  On success the token is stored, the
default `Authorization` header set, and the store updated with the user and
`isAuthenticated = true`.  Any failure runs the `catch` branch and rethrows
the original error. -/
def loginService (resp : Except String (String × UserRec)) (postFailure : Option String)
    (s : FrontState) : Except String UserRec × FrontState :=
  match resp with
  | .error e => (.error e, loginCatchReset s)
  | .ok (access_token, user) =>
    let s1 := { s with
      storage := some access_token,
      apiAuthHeader := some ("Bearer " ++ access_token),
      store := ((s.store.setUser (some user)).setIsAuthenticated true) }
    match postFailure with
    | some e => (.error e, loginCatchReset s1)
    | none => (.ok user, s1)

/-- `refreshToken` (`services/authService.ts`, lines 115–131): if the stored
token is invalid, clear the store and return `null`; otherwise the outcome of
`await api.get('/auth/me')` either updates the store (user,
`isAuthenticated = true`) and is returned, or the store is cleared and `null`
returned. -/
def refreshToken (decode : JwtDecoder) (now : ℚ) (meResp : Except String UserRec)
    (s : FrontState) : Option UserRec × FrontState :=
  if !isTokenValid decode now s.storage then
    (none, { s with store := s.store.clearAuth })
  else
    match meResp with
    | .ok u =>
      (some u, { s with store := (s.store.setUser (some u)).setIsAuthenticated true })
    | .error _ => (none, { s with store := s.store.clearAuth })

/-! ## Session rehydration (`App.tsx`, `attemptRehydrate`) -/

/-- `attemptRehydrate` (`App.tsx`, lines 37–95), for the rendering where the
store is not yet authenticated.  With a truthy stored token: if it is valid,
`refreshToken` runs; a refreshed user without a truthy `role` forces
`clearAuth()` plus `localStorage.removeItem("token")`; otherwise the store is
updated and `selectedCompanyId` set from the role (superAdmin → `null`,
admin/employee → the user's `company_id`).  A `null` refresh result or an
invalid token clears both store and token.  With no truthy token, the store
is cleared only if it claimed to be authenticated. -/
def attemptRehydrate (decode : JwtDecoder) (now : ℚ) (meResp : Except String UserRec)
    (s : FrontState) : FrontState :=
  if optStrTruthy s.storage then
    if isTokenValid decode now s.storage then
      match refreshToken decode now meResp s with
      | (some u, s1) =>
        if !roleTruthy u.role then
          { s1 with store := s1.store.clearAuth, storage := none }
        else
          let s2 := { s1 with
            store := (s1.store.setUser (some u)).setIsAuthenticated true }
          if u.role = some "superAdmin" then
            { s2 with store := s2.store.setSelectedCompanyId none }
          else if u.role = some "admin" ∨ u.role = some "employee" then
            { s2 with store := s2.store.setSelectedCompanyId u.company_id }
          else
            s2
      | (none, s1) =>
        { s1 with store := s1.store.clearAuth, storage := none }
    else
      { s with store := s.store.clearAuth, storage := none }
  else
    if s.store.isAuthenticated then { s with store := s.store.clearAuth } else s

/-- One guard evaluation seen at the level of the whole front-end state:
`ProtectedRoute` reads and writes only the zustand store — it never touches
`localStorage` — so the token slot and the rest of the state pass through. -/
def guardStep (s : FrontState) (req : RoleReq) : GuardOutcome × FrontState :=
  let (out, st) := protectedRoute s.store req
  (out, { s with store := st })

/-! ## Sign-in page (`pages/SignInPage_old.tsx`) -/

/-- The email test `/\S+@\S+\.\S+/.test(email)` of `validateForm`: some
contiguous run `x@y.z` occurs in the string with `x`, `y`, `z` non-empty and
free of whitespace — equivalently there are an `'@'` at position `i` and a
`'.'` at position `k` with a non-whitespace character just before the `'@'`,
only non-whitespace characters strictly between them (at least one), and a
non-whitespace character just after the `'.'`. -/
def emailRegexTest (email : String) : Bool :=
  let cs := email.toList
  let n := cs.length
  (List.range n).any fun i =>
    (List.range n).any fun k =>
      cs.getD i ' ' == '@' && cs.getD k ' ' == '.' &&
      decide (1 ≤ i) && !(cs.getD (i - 1) ' ').isWhitespace &&
      decide (i + 2 ≤ k) &&
      ((List.range' (i + 1) (k - i - 1)).all fun j => !(cs.getD j ' ').isWhitespace) &&
      decide (k + 1 < n) && !(cs.getD (k + 1) ' ').isWhitespace

/-- `validateForm` of `pages/SignInPage_old.tsx`: no error is recorded iff
the email is present and matches the regex and the password is present. -/
def validateForm (email password : String) : Bool :=
  (email != "" && emailRegexTest email) && password != ""

/-- `handleSubmit` of `pages/SignInPage_old.tsx` (lines 40–84).  After a
passing `validateForm`, `login` runs; on success the store receives the user
and `isAuthenticated = true` (again), then the role decides the navigation:
`superAdmin` → select-company with `selectedCompanyId` reset, `admin` →
analytics dashboard with `selectedCompanyId := company_id`, `employee` →
tickets (unless `department_id` is falsy, which rolls the store flags back
and records an error), anything else → the site root.  A failed `login`
records the generic sign-in error. -/
def handleSubmit (email password : String) (resp : Except String (String × UserRec))
    (postFailure : Option String) (s : FrontState) : FrontState :=
  if !validateForm email password then s
  else
    let s0 := { s with generalError := none }
    match loginService resp postFailure s0 with
    | (.error _, s1) =>
      { s1 with generalError := some "Failed to sign in. Please check your credentials." }
    | (.ok user, s1) =>
      let s2 := { s1 with
        store := (s1.store.setUser (some user)).setIsAuthenticated true }
      if user.role = some "superAdmin" then
        { s2 with store := s2.store.setSelectedCompanyId none,
                  route := some "/admin/select-company" }
      else if user.role = some "admin" then
        { s2 with store := s2.store.setSelectedCompanyId user.company_id,
                  route := some "/admin/analytics-dashboard" }
      else if user.role = some "employee" then
        let s3 := { s2 with store := s2.store.setSelectedCompanyId user.company_id }
        if !roleTruthy user.department_id then
          { s3 with
            generalError := some
              "Your account is not associated with a department. Please contact your administrator.",
            store := (s3.store.setIsAuthenticated false).setUser none }
        else
          { s3 with route := some "/tickets" }
      else
        { s2 with route := some "/" }

/-! ## Tickets resource client pagination (`services/departmentService.ts`,
`getTickets`) -/

/-- JavaScript `x || d` on an optional number: `undefined` and `0` are falsy
and replaced by the default. -/
def numOrDefault (x : Option ℕ) (d : ℕ) : ℕ :=
  match x with
  | none => d
  | some v => if v = 0 then d else v

/-- The wire `offset` parameter built by `getTickets`:
`if (page !== undefined) apiParams.offset = ((page || 1) - 1) * (limit || 15)`.
`none` means the parameter is omitted from the query. -/
def ticketsWireOffset (page limit : Option ℕ) : Option ℕ :=
  match page with
  | none => none
  | some _ => some ((numOrDefault page 1 - 1) * numOrDefault limit 15)

/-- The `totalPages` field computed client-side by `getTickets`:
`Math.ceil(responseData.total / (limit || 15))`. -/
def ticketsTotalPages (total : ℕ) (limit : Option ℕ) : ℕ :=
  ⌈(total : ℚ) / (numOrDefault limit 15 : ℚ)⌉₊

/-! ## Concrete sample values used in closed statements -/

/-- A well-formed tenant-admin user of tenant `T1`. -/
def sampleAdmin : UserRec :=
  { id := "u1", username := "alice", email := "alice@t1.example",
    role := some "admin", company_id := some "T1", department_id := none }

/-- A user record whose `role` is absent — the corrupted-session shape. -/
def userNoRole : UserRec :=
  { id := "u2", username := "bob", email := "bob@x.example",
    role := none, company_id := some "T1", department_id := none }

/-- A 401 axios error with an empty body. -/
def err401 : HttpError := ⟨some ⟨401, Json.null⟩⟩

/-- A browser state in the middle of an authenticated session. -/
def clientDemo : ClientState :=
  { token := some "tok", store := ⟨true, some sampleAdmin, some "T1"⟩,
    locationHref := "/tickets", navWrites := 0, toasts := [] }

/-- The front-end state before any interaction. -/
def initFront : FrontState :=
  { storage := none, apiAuthHeader := none, store := AuthState.initial,
    route := none, generalError := none }

/-- A decoder accepting every token with `exp = 100`. -/
def decodeDemo : JwtDecoder := fun _ => .ok ⟨some 100⟩

/-- A stored token alongside a store that claims authentication for a
role-less user. -/
def rehydDemo : FrontState :=
  { storage := some "t", apiAuthHeader := none,
    store := ⟨true, some userNoRole, none⟩, route := none, generalError := none }

/-! ## Helper lemmas (shared) -/

/-- The effects of the response interceptor on a 401 error: token removed,
one navigation to `/login`, one session-expired toast, store untouched,
error re-raised. -/
theorem handler401_effects (e : HttpError) (s : ClientState) (r : HttpResponse)
    (hr : e.response = some r) (hst : r.status = 401) :
    ((responseErrorHandler e s).1.token = none ∧
     (responseErrorHandler e s).1.locationHref = "/login" ∧
     (responseErrorHandler e s).1.navWrites = s.navWrites + 1 ∧
     (responseErrorHandler e s).1.toasts
       = s.toasts ++ ["Your session has expired. Please login again."] ∧
     (responseErrorHandler e s).1.store = s.store ∧
     (responseErrorHandler e s).2 = e) := by
  obtain ⟨resp⟩ := e
  cases resp with
  | none => simp at hr
  | some r2 =>
    obtain rfl : r2 = r := by simpa using hr
    simp [responseErrorHandler, hst, ClientState.toast, ClientState.navigate]

/-- Stringifying an object is never the empty string. -/
theorem stringify_obj_ne_empty (fs : List (String × Json)) :
    Json.stringify (Json.obj fs) ≠ "" := by
  intro h
  have h2 := congrArg String.length h
  rw [Json.stringify] at h2
  simp [String.length_append] at h2
  exact absurd h2.1.1 (by decide)

/-- The message surfaced by the interceptor's 422 branch is never empty. -/
theorem validation422Message_ne_empty (d : Json) : validation422Message d ≠ "" := by
  rw [validation422Message]
  split
  · simp
  · next h => exact h

/-- A string of length zero is the empty string. -/
theorem string_length_zero (a : String) (h : a.length = 0) : a = "" := by
  rcases a with ⟨cs⟩
  simp [String.length] at h
  simp [h]

/-- Appending to a non-empty string stays non-empty. -/
theorem append_ne_empty_left (a b : String) (ha : a ≠ "") : a ++ b ≠ "" := by
  intro h
  have h2 := congrArg String.length h
  simp [String.length_append] at h2
  exact ha (string_length_zero a h2.1)

/-- The accumulator of `String.intercalate.go` never becomes empty. -/
theorem intercalate_go_ne (s : String) : ∀ (as : List String) (acc : String), acc ≠ "" →
    String.intercalate.go acc s as ≠ ""
  | [], acc, hacc => by
    rw [String.intercalate.go]
    exact hacc
  | a :: as, acc, hacc => by
    rw [String.intercalate.go]
    exact intercalate_go_ne s as (acc ++ s ++ a)
      (append_ne_empty_left _ _ (append_ne_empty_left _ _ hacc))

/-- Joining a non-empty list of non-empty strings is non-empty. -/
theorem intercalate_ne_empty (sep : String) (msgs : List String) (hne : msgs ≠ [])
    (h : ∀ m ∈ msgs, m ≠ "") : String.intercalate sep msgs ≠ "" := by
  match msgs with
  | [] => exact absurd rfl hne
  | m :: rest =>
    rw [String.intercalate]
    exact intercalate_go_ne sep rest m (h m (by simp))

/-- Mapping the 422 branch's per-error normalizer over a list of
FastAPI-style `{msg}` objects whose messages are all non-empty (so each
`msg` passes the `err.msg &&` truthiness check) recovers exactly the
messages. -/
theorem map_msg_objects (msgs : List String) (h : ∀ m ∈ msgs, m ≠ "") :
    (msgs.map fun m => Json.obj [("msg", Json.str m)]).map (fun e =>
      match e with
      | Json.str s => s
      | _ =>
        if (e.getField "msg").truthy ∧ ((e.getField "msg").asString).isSome then
          ((e.getField "msg").asString).getD ""
        else
          e.stringify) = msgs := by
  induction msgs with
  | nil => rfl
  | cons m ms ih =>
    have hm : m ≠ "" := h m (by simp)
    have ihh := ih (fun x hx => h x (by simp [hx]))
    simp only [List.map_cons]
    rw [ihh]
    congr 1
    simp [Json.getField, Json.asString, Json.truthy, hm]

/-- A valid token implies a truthy storage slot. -/
theorem isTokenValid_truthy (decode : JwtDecoder) (now : ℚ) (slot : Option String)
    (h : isTokenValid decode now slot = true) : optStrTruthy slot = true := by
  rw [isTokenValid] at h
  by_cases ht : optStrTruthy slot
  · exact ht
  · simp [ht] at h

/-! ## Claims -/

/-- Claim C1: for every navigation to a protected route, `ProtectedRoute`
checks authentication, then role-corruption, then role-mismatch, in that
order, and produces exactly one outcome — redirect to login preserving the
attempted location when unauthenticated; clear the session store and
redirect to login when the user record or its role is absent; redirect to
the role-appropriate default (`superAdmin` → company selection, `admin` →
analytics dashboard, `employee` → site root, anything else → the generic
fallback) on a role mismatch; render otherwise.  Stated as equality with
`guardSpec`, the guard transcribed from §4.3 of the specification, for every
store state and every role requirement other than the degenerate
empty-string single role (which no route in `App.tsx` passes, and which the
component's JavaScript truthiness check treats as no requirement at all). -/
theorem protectedRoute_eq_guardSpec (st : AuthState) (req : RoleReq)
    (hreq : req ≠ some (Sum.inl "")) : protectedRoute st req = guardSpec st req := by
  obtain ⟨auth, user, cid⟩ := st
  cases auth
  · simp [protectedRoute, guardSpec]
  · cases user with
    | none => simp [protectedRoute, guardSpec]
    | some u =>
      by_cases hrole : roleTruthy u.role
      · rcases hu : u.role with _ | r
        · rw [hu] at hrole; simp [roleTruthy] at hrole
        · have hr : r ≠ "" := by
            rw [hu] at hrole; simpa [roleTruthy] using hrole
          match req with
          | none => simp [protectedRoute, guardSpec, hrole, hu, hr]
          | some (.inl s) =>
            have hs : s ≠ "" := by intro h; exact hreq (by rw [h])
            simp [protectedRoute, guardSpec, hrole, hu, hr, hs, List.elem_iff]
          | some (.inr l) =>
            simp [protectedRoute, guardSpec, hrole, hu, hr, List.elem_iff]
      · simp [protectedRoute, guardSpec, hrole]

/-- Witness for C1: an authenticated tenant admin visiting a
superAdmin-only route is redirected to the analytics dashboard, equally by
the implementation and by the specification's guard. -/
theorem protectedRoute_eq_guardSpec_witness :
    protectedRoute ⟨true, some sampleAdmin, some "T1"⟩ (some (Sum.inl "superAdmin"))
      = guardSpec ⟨true, some sampleAdmin, some "T1"⟩ (some (Sum.inl "superAdmin")) :=
  protectedRoute_eq_guardSpec ⟨true, some sampleAdmin, some "T1"⟩
    (some (Sum.inl "superAdmin")) (by decide)

/-- Counterexample to claim C2: after the interceptor handles a 401 during
an authenticated session, the session store still has
`isAuthenticated = true` — the 401 branch of `services/api.ts` removes the
token, navigates and toasts, but never clears the zustand store. -/
theorem interceptor401_store_not_cleared_cex :
    (responseErrorHandler err401 clientDemo).1.store.isAuthenticated = true := by
  rfl

/-- Claim C2 (amended): on every 401 response the interceptor clears the
stored auth token, forces navigation to `/login`, surfaces exactly one
session-expired notification, re-raises the error to the caller — and
leaves the in-memory session store unchanged (the store is only reset
because the forced hard navigation reloads the application). -/
theorem interceptor401_amended (e : HttpError) (s : ClientState) (r : HttpResponse)
    (hr : e.response = some r) (hst : r.status = 401) :
    ((responseErrorHandler e s).1.token = none ∧
     (responseErrorHandler e s).1.locationHref = "/login" ∧
     (responseErrorHandler e s).1.navWrites = s.navWrites + 1 ∧
     (responseErrorHandler e s).1.toasts
       = s.toasts ++ ["Your session has expired. Please login again."] ∧
     (responseErrorHandler e s).1.store = s.store ∧
     (responseErrorHandler e s).2 = e) :=
  handler401_effects e s r hr hst

/-- Witness for C2 (amended): the concrete 401 error forces navigation to
the login screen. -/
theorem interceptor401_amended_witness :
    (responseErrorHandler err401 clientDemo).1.locationHref = "/login" :=
  (interceptor401_amended err401 clientDemo ⟨401, Json.null⟩ rfl rfl).2.1

/-- Claim C3: the interceptor's 422 normalization yields a single non-empty
string for each documented shape of `detail` — a non-empty plain string is
used as is; an array of `{msg}` objects with non-empty messages is flattened
to the messages joined by `"; "` (an element whose `msg` fails the source's
`err.msg &&` truthiness check is `JSON.stringify`-ed instead, shown at the
concrete `{msg: ""}` element); a nested object yields its `message` field
when that is a non-empty string and its `JSON.stringify` rendering
otherwise; an absent `detail` yields the default message; and the surfaced
message is non-empty for every body whatsoever. -/
theorem validation422_normalization (s : String) (msgs : List String)
    (fs : List (String × Json)) :
    ((s ≠ "" → validation422Message (Json.obj [("detail", Json.str s)]) = s) ∧
     (msgs ≠ [] → (∀ m ∈ msgs, m ≠ "") →
       validation422Message
          (Json.obj [("detail", Json.arr (msgs.map fun m => Json.obj [("msg", Json.str m)]))])
        = String.intercalate "; " msgs) ∧
     (validation422Message (Json.obj [("detail", Json.arr [Json.obj [("msg", Json.str "")]])])
        = Json.stringify (Json.obj [("msg", Json.str "")])) ∧
     (∀ m, m ≠ "" → fs.find? (fun p => p.1 == "message") = some ("message", Json.str m) →
       validation422Message (Json.obj [("detail", Json.obj fs)]) = m) ∧
     (fs.find? (fun p => p.1 == "message") = none →
       validation422Message (Json.obj [("detail", Json.obj fs)])
         = Json.stringify (Json.obj fs)) ∧
     (validation422Message Json.undefined = "Invalid input data.") ∧
     (validation422Message (Json.obj []) = "Invalid input data.") ∧
     (∀ d : Json, validation422Message d ≠ "")) := by
  refine ⟨?_, ?_, rfl, ?_, ?_, rfl, rfl, validation422Message_ne_empty⟩
  · intro hs
    rw [validation422Message]
    have hraw : validation422Raw (Json.obj [("detail", Json.str s)]) = s := by
      rw [validation422Raw]
      simp [Json.truthy, Json.getField, hs]
    rw [hraw]
    simp [hs]
  · intro hne hall
    have hraw : validation422Raw
        (Json.obj [("detail", Json.arr (msgs.map fun m => Json.obj [("msg", Json.str m)]))])
      = String.intercalate "; " msgs := by
      have h0 : validation422Raw
          (Json.obj [("detail", Json.arr (msgs.map fun m => Json.obj [("msg", Json.str m)]))])
        = String.intercalate "; "
            ((msgs.map fun m => Json.obj [("msg", Json.str m)]).map (fun e =>
              match e with
              | Json.str s => s
              | _ =>
                if (e.getField "msg").truthy ∧ ((e.getField "msg").asString).isSome then
                  ((e.getField "msg").asString).getD ""
                else
                  e.stringify)) := rfl
      rw [h0, map_msg_objects msgs hall]
    rw [validation422Message, hraw, if_neg (intercalate_ne_empty "; " msgs hne hall)]
  · intro m hm hfind
    rw [validation422Message]
    have hraw : validation422Raw (Json.obj [("detail", Json.obj fs)]) = m := by
      rw [validation422Raw]
      simp [Json.truthy, Json.getField, hfind, Json.asString, hm]
    rw [hraw]
    simp [hm]
  · intro hfind
    rw [validation422Message]
    have hraw : validation422Raw (Json.obj [("detail", Json.obj fs)])
        = Json.stringify (Json.obj fs) := by
      rw [validation422Raw]
      simp [Json.truthy, Json.getField, hfind, Json.asString, Json.isObjectType]
    rw [hraw]
    simp [stringify_obj_ne_empty fs]

/-- Witness for C3: a plain-string `detail` is surfaced verbatim. -/
theorem validation422_normalization_witness :
    validation422Message (Json.obj [("detail", Json.str "bad name")]) = "bad name" :=
  (validation422_normalization "bad name" [] []).1 (by decide)

/-- Counterexample to claim C4: two requests failing with 401 before the
page navigates away produce two session-expired toasts and two assignments
to `window.location.href` — the side effect is per-request, not
de-duplicated. -/
theorem concurrent401_not_deduplicated_cex :
    (processErrors [err401, err401] clientDemo).toasts.length = 2 ∧
    (processErrors [err401, err401] clientDemo).navWrites = 2 := by
  constructor <;> rfl

/-- Claim C4 (amended): when `n` concurrent requests each fail with 401 and
each rejection callback runs before the page unloads, the interceptor shows
the session-expired notification `n` times and assigns the login location
`n` times — once per failing request, with no de-duplication. -/
theorem concurrent401_per_request_effects (es : List HttpError) (s : ClientState)
    (h : ∀ e ∈ es, ∃ r, e.response = some r ∧ r.status = 401) :
    (processErrors es s).toasts.length = s.toasts.length + es.length ∧
    (processErrors es s).navWrites = s.navWrites + es.length := by
  induction es generalizing s with
  | nil => simp [processErrors]
  | cons e rest ih =>
    obtain ⟨r, hr, hst⟩ := h e (by simp)
    have step := handler401_effects e s r hr hst
    have ihh := ih (responseErrorHandler e s).1 (fun e2 he2 => h e2 (by simp [he2]))
    have hunfold : processErrors (e :: rest) s
        = processErrors rest (responseErrorHandler e s).1 := rfl
    rw [hunfold]
    constructor
    · rw [ihh.1, step.2.2.2.1]
      simp [List.length_append, List.length_cons]
      omega
    · rw [ihh.2, step.2.2.1]
      simp [List.length_cons]
      omega

/-- Witness for C4 (amended): a single 401 failure produces exactly one
toast and one navigation. -/
theorem concurrent401_per_request_effects_witness :
    (processErrors [err401] clientDemo).toasts.length = clientDemo.toasts.length + 1 ∧
    (processErrors [err401] clientDemo).navWrites = clientDemo.navWrites + 1 := by
  have h := concurrent401_per_request_effects [err401] clientDemo
    (by intro e he
        simp at he
        subst he
        exact ⟨⟨401, Json.null⟩, rfl, rfl⟩)
  simpa using h

/-- Claim C5: for a provided page `p ≥ 1` and positive page size `l`,
`getTickets` sends wire offset `(p-1)*l` (`page=3, limit=15` gives `30`) and
computes `totalPages = ⌈total / limit⌉` client-side (`total=42, limit=15`
gives `3`). -/
theorem tickets_pagination (p l t : ℕ) (hp : 1 ≤ p) (hl : 0 < l) :
    (ticketsWireOffset (some p) (some l) = some ((p - 1) * l) ∧
     ticketsTotalPages t (some l) = ⌈(t : ℚ) / (l : ℚ)⌉₊ ∧
     ticketsWireOffset (some 3) (some 15) = some 30 ∧
     ticketsTotalPages 42 (some 15) = 3) := by
  have hp0 : p ≠ 0 := by omega
  have hl0 : l ≠ 0 := by omega
  refine ⟨?_, ?_, by decide, ?_⟩
  · simp [ticketsWireOffset, numOrDefault, hp0, hl0]
  · simp [ticketsTotalPages, numOrDefault, hl0]
  · show (⌈((42 : ℕ) : ℚ) / ((15 : ℕ) : ℚ)⌉₊ : ℕ) = 3
    rw [Nat.ceil_eq_iff (by norm_num)]
    norm_num

/-- Witness for C5: page 3 at page size 15 is sent as offset 30. -/
theorem tickets_pagination_witness : ticketsWireOffset (some 3) (some 15) = some 30 :=
  (tickets_pagination 3 15 42 (by decide) (by decide)).2.2.1

/-- Claim C6: a successful login of a tenant-admin user with tenant id
`"T1"` leaves the session store authenticated with the user and operating
tenant `"T1"`, the token stored (and set as the default `Authorization`
header), and the caller navigated to the analytics dashboard route. -/
theorem login_tenantAdmin_end_to_end (email password tok : String) (u : UserRec)
    (s : FrontState) (hv : validateForm email password = true)
    (hrole : u.role = some "admin") (hcid : u.company_id = some "T1") :
    ((handleSubmit email password (.ok (tok, u)) none s).store.isAuthenticated = true ∧
     (handleSubmit email password (.ok (tok, u)) none s).store.selectedCompanyId
       = some "T1" ∧
     (handleSubmit email password (.ok (tok, u)) none s).store.user = some u ∧
     (handleSubmit email password (.ok (tok, u)) none s).storage = some tok ∧
     (handleSubmit email password (.ok (tok, u)) none s).apiAuthHeader
       = some ("Bearer " ++ tok) ∧
     (handleSubmit email password (.ok (tok, u)) none s).route
       = some "/admin/analytics-dashboard") := by
  simp [handleSubmit, hv, loginService, hrole, hcid, AuthState.setUser,
    AuthState.setIsAuthenticated, AuthState.setSelectedCompanyId]

/-- Witness for C6: the sample tenant admin is routed to the analytics
dashboard. -/
theorem login_tenantAdmin_end_to_end_witness :
    (handleSubmit "alice@t1.example" "pw" (.ok ("tok1", sampleAdmin)) none initFront).route
      = some "/admin/analytics-dashboard" :=
  (login_tenantAdmin_end_to_end "alice@t1.example" "pw" "tok1" sampleAdmin initFront
    (by decide) rfl rfl).2.2.2.2.2

/-- Counterexample to claim C7: a guard evaluation that finds an
authenticated session with a role-less user redirects to login and clears
the session store, but the stored auth token survives — `ProtectedRoute`
never touches `localStorage`, so the token is not discarded in the guard
scenario. -/
theorem guard_keeps_token_cex :
    ((guardStep ⟨some "tok9", none, ⟨true, some userNoRole, none⟩, none, none⟩ none).1
        = GuardOutcome.loginRedirect ∧
     (guardStep ⟨some "tok9", none, ⟨true, some userNoRole, none⟩, none, none⟩ none).2.storage
        = some "tok9") :=
  ⟨rfl, rfl⟩

/-- Claim C7 (amended): a role-less user after a successful network call is
never silently accepted — the rehydration path (`attemptRehydrate` with a
successful `/auth/me` response) fully clears the session store AND discards
the stored token, while the guard path clears the session store and
redirects to login but leaves the stored token in place; in both scenarios
the resulting store is unauthenticated, so role-presence-when-authenticated
holds of the states these handlers produce. -/
theorem role_missing_recovery (decode : JwtDecoder) (now : ℚ) (u : UserRec)
    (s : FrontState) (st : AuthState) (req : RoleReq)
    (hvalid : isTokenValid decode now s.storage = true)
    (hrole : roleTruthy u.role = false)
    (hauth : st.isAuthenticated = true) (huser : st.user = some u) :
    ((attemptRehydrate decode now (.ok u) s).store = ⟨false, none, none⟩ ∧
     (attemptRehydrate decode now (.ok u) s).storage = none ∧
     (guardStep { s with store := st } req).1 = GuardOutcome.loginRedirect ∧
     (guardStep { s with store := st } req).2.store = ⟨false, none, none⟩ ∧
     (guardStep { s with store := st } req).2.storage = s.storage) := by
  have htruthy := isTokenValid_truthy decode now s.storage hvalid
  refine ⟨?_, ?_, ?_, ?_, ?_⟩
  · simp [attemptRehydrate, htruthy, hvalid, refreshToken, hrole, AuthState.clearAuth]
  · simp [attemptRehydrate, htruthy, hvalid, refreshToken, hrole, AuthState.clearAuth]
  · simp [guardStep, protectedRoute, hauth, huser, hrole]
  · simp [guardStep, protectedRoute, hauth, huser, hrole, AuthState.clearAuth]
  · simp [guardStep, protectedRoute, hauth, huser, hrole]

/-- Witness for C7 (amended): rehydrating a role-less user discards the
stored token. -/
theorem role_missing_recovery_witness :
    (attemptRehydrate decodeDemo 50 (.ok userNoRole) rehydDemo).storage = none :=
  (role_missing_recovery decodeDemo 50 userNoRole rehydDemo ⟨true, some userNoRole, none⟩
    none (by decide) rfl rfl rfl).2.1

/-- Claim C8: `clearAuth()` resets `isAuthenticated`, `user` and
`selectedCompanyId` in one atomic store update, regardless of the prior
state, and is idempotent. -/
theorem clearAuth_total_reset (s : AuthState) :
    (s.clearAuth.isAuthenticated = false ∧ s.clearAuth.user = none ∧
     s.clearAuth.selectedCompanyId = none ∧ s.clearAuth.clearAuth = s.clearAuth ∧
     s.clearAuth = AuthState.initial) :=
  ⟨rfl, rfl, rfl, rfl, rfl⟩

/-- Claim C9: a login that fails at any point — the request rejects, or a
later step throws after the token was written — rethrows the original error
and leaves the observable auth state fully reset: token removed, default
`Authorization` header deleted, store cleared. -/
theorem login_failure_resets (resp : Except String (String × UserRec))
    (post : Option String) (s : FrontState) :
    ((∀ e, resp = .error e → (loginService resp post s).1 = .error e) ∧
     (∀ tu e, resp = .ok tu → post = some e → (loginService resp post s).1 = .error e) ∧
     (∀ tu, resp = .ok tu → post = none → (loginService resp post s).1 = .ok tu.2) ∧
     ((∃ e, (loginService resp post s).1 = .error e) →
       ((loginService resp post s).2.storage = none ∧
        (loginService resp post s).2.apiAuthHeader = none ∧
        (loginService resp post s).2.store = ⟨false, none, none⟩))) := by
  refine ⟨?_, ?_, ?_, ?_⟩
  · rintro e rfl
    rfl
  · rintro ⟨tok, u⟩ e rfl rfl
    rfl
  · rintro ⟨tok, u⟩ rfl rfl
    rfl
  · rintro ⟨e, herr⟩
    match resp with
    | .error e2 =>
      simp [loginService, loginCatchReset, AuthState.clearAuth]
    | .ok (tok, u) =>
      match post with
      | some e2 => simp [loginService, loginCatchReset, AuthState.clearAuth]
      | none => simp [loginService] at herr

/-- Witness for C9: a rejected login request is rethrown and leaves no
token behind. -/
theorem login_failure_resets_witness :
    (loginService (.error "boom") none initFront).1 = .error "boom" ∧
    (loginService (.error "boom") none initFront).2.storage = none :=
  ⟨(login_failure_resets (.error "boom") none initFront).1 "boom" rfl,
   ((login_failure_resets (.error "boom") none initFront).2.2.2 ⟨"boom", rfl⟩).1⟩

/-- Claim C10: `isTokenValid` is a total function of the storage slot and
decoder — it returns `false` when no token is stored, `false` when the
stored string cannot be decoded (the thrown decode error is caught), and
`true` exactly when the slot holds a non-empty token whose decoded `exp`
claim is present and strictly greater than the current time in seconds. -/
theorem isTokenValid_total_spec (decode : JwtDecoder) (now : ℚ) (slot : Option String) :
    ((slot = none → isTokenValid decode now slot = false) ∧
     (∀ t, slot = some t → decode t = .error () → isTokenValid decode now slot = false) ∧
     (isTokenValid decode now slot = true ↔
       ∃ t p e, slot = some t ∧ t ≠ "" ∧ decode t = .ok p ∧ p.exp = some e ∧ e > now)) := by
  refine ⟨?_, ?_, ?_⟩
  · rintro rfl
    rfl
  · rintro t rfl hdec
    simp [isTokenValid, optStrTruthy, hdec]
  · constructor
    · intro h
      rw [isTokenValid] at h
      match slot with
      | none => simp [optStrTruthy] at h
      | some t =>
        by_cases ht : t = ""
        · subst ht; simp [optStrTruthy] at h
        · simp only [optStrTruthy, ht, Option.getD_some] at h
          rw [if_neg (by simp [ht])] at h
          match hdec : decode t with
          | .error u => rw [hdec] at h; simp at h
          | .ok payload =>
            rw [hdec] at h
            have h2 : (match payload.exp with
                | none => false
                | some e => decide (e > now)) = true := h
            match hexp : payload.exp with
            | none => rw [hexp] at h2; simp at h2
            | some e =>
              rw [hexp] at h2
              simp at h2
              exact ⟨t, payload, e, rfl, ht, hdec, hexp, h2⟩
    · rintro ⟨t, payload, e, rfl, ht, hdec, hexp, hgt⟩
      simp [isTokenValid, optStrTruthy, ht, hdec, hexp, hgt]

/-- Witness for C10: a decoder returning `exp = 100` validates a stored
token at time 50. -/
theorem isTokenValid_total_spec_witness : isTokenValid decodeDemo 50 (some "x") = true :=
  (isTokenValid_total_spec decodeDemo 50 (some "x")).2.2.mpr
    ⟨"x", ⟨some 100⟩, 100, rfl, by decide, rfl, rfl, by decide⟩
